import Mathlib

set_option maxRecDepth 8192

/-!
Verification development for the `ready_redis` instance registry and
lifecycle manager (`src/ready_redis/ready_redis.py`).

The Python module is shallowly embedded:

* `Config` is the registry key tuple built in `ReadyRedis.get`.
* `GetParams` carries `get`'s keyword parameters with their source defaults.
* `EnvFileBuf` models the temporary environment file as a character buffer
  with a write position, so that the `seek`/`write`/`truncate` sequence in
  `_start_redis_container`'s fallback branch is reproduced exactly.
* `startRedisContainer` embeds `ReadyRedis._start_redis_container`, with the
  outcomes of the external `DockerCompose.start` calls supplied by a
  `ComposeEnv` oracle.
* `ColabRedis` embeds the direct-binary (Colab) provisioning class.
* `Handle.cleanup` embeds `ReadyRedis.cleanup` as explicit state passing over
  the handle's fields, the external backend state, and a `CleanupEnv` oracle
  for the outcomes of the external calls; the list of emitted `Event`s records
  the order of the observable side effects.
* `Sys` holds the class-level `_instances` dictionary (as an association list
  keyed by `Config`, with Python object identity modelled by numeric handle
  ids) together with the fresh-id and fresh-ULID supplies; `Sys.getByConfig`,
  `Sys.get`, `Sys.cleanupHandle` and `Sys.shutdownAll` embed the corresponding
  class methods.
-/

/-- The full configuration tuple used as the registry key in
`ReadyRedis.get` (`config = (name, redis_container_name, host, port, db,
password, protocol, redis_version, redis_args)`). -/
structure Config where
  name : String
  redisContainerName : String
  host : String
  port : Nat
  db : Nat
  password : Option String
  protocol : Nat
  redisVersion : String
  redisArgs : String
deriving DecidableEq, Repr

/-- The keyword parameters of `ReadyRedis.get` with the default values that
appear in the source (`name="ready-redis"`, `redis_container_name=None`,
`host="localhost"`, `port=6379`, `db=0`, `password=None`, `protocol=3`,
`redis_version="latest"`, `redis_args="--save '' --appendonly no"`). -/
structure GetParams where
  name : String := "ready-redis"
  redisContainerName : Option String := none
  host : String := "localhost"
  port : Nat := 6379
  db : Nat := 0
  password : Option String := none
  protocol : Nat := 3
  redisVersion : String := "latest"
  redisArgs : String := "--save '' --appendonly no"
deriving DecidableEq, Repr

/-- The temporary environment file (`tempfile.NamedTemporaryFile(mode="w")`)
as a character buffer plus the current write position. -/
structure EnvFileBuf where
  content : List Char
  pos : Nat
deriving DecidableEq, Repr

/-- A freshly created, empty temporary file. -/
def EnvFileBuf.empty : EnvFileBuf := ⟨[], 0⟩

/-- `file.write(s)`: overwrite the characters at the current position with
`s` and advance the position. -/
def EnvFileBuf.write (b : EnvFileBuf) (s : String) : EnvFileBuf :=
  ⟨b.content.take b.pos ++ s.data ++ b.content.drop (b.pos + s.data.length),
   b.pos + s.data.length⟩

/-- `file.seek(n)`. -/
def EnvFileBuf.seek (b : EnvFileBuf) (n : Nat) : EnvFileBuf :=
  ⟨b.content, n⟩

/-- `file.truncate()` with no argument: cut the file at the current
position. -/
def EnvFileBuf.truncate (b : EnvFileBuf) : EnvFileBuf :=
  ⟨b.content.take b.pos, b.pos⟩

/-- The five `KEY=VALUE` writes performed by `_start_redis_container` right
after creating the temporary file. -/
def envFileInit (c : Config) : EnvFileBuf :=
  (((((EnvFileBuf.empty.write ("PROJECT_NAME=" ++ c.name ++ "\n")).write
      ("REDIS_CONTAINER_NAME=" ++ c.redisContainerName ++ "\n")).write
      ("REDIS_VERSION=" ++ c.redisVersion ++ "\n")).write
      ("REDIS_PORT=" ++ toString c.port ++ "\n")).write
      ("REDIS_ARGS=" ++ c.redisArgs ++ "\n"))

/-- The `seek(0)` / `write("REDIS_VERSION=latest\n")` / `truncate()` sequence
performed in the `"manifest unknown"` fallback branch of
`_start_redis_container`. -/
def fallbackRewrite (b : EnvFileBuf) : EnvFileBuf :=
  ((b.seek 0).write "REDIS_VERSION=latest\n").truncate

/-- Number of `KEY=VALUE` lines in the buffer (every write ends in a newline,
so this is the number of newline characters). -/
def lineCount (b : EnvFileBuf) : Nat :=
  b.content.count '\n'

/-- A sample configuration, as produced by
`get(redis_container_name="my-redis", redis_version="6.2.6-v9")`. -/
def sampleConfig : Config :=
  { name := "ready-redis"
    redisContainerName := "my-redis"
    host := "localhost"
    port := 6379
    db := 0
    password := none
    protocol := 3
    redisVersion := "6.2.6-v9"
    redisArgs := "--save '' --appendonly no" }

/-- Outcome of one external `DockerCompose.start` invocation: it either
returns normally, raises a `CalledProcessError` whose text contains
`"manifest unknown"`, or fails in any other way. -/
inductive StartOutcome where
  | success
  | manifestUnknown
  | otherFailure
deriving DecidableEq, Repr

/-- Oracle for the external facts `_start_redis_container` depends on:
whether the bundled `docker-compose.yml` is found, and the outcomes of the
first and (if reached) second `self._compose.start()` calls. -/
structure ComposeEnv where
  composeFilePresent : Bool
  firstStart : StartOutcome
  secondStart : StartOutcome
deriving DecidableEq, Repr

/-- Errors `_start_redis_container` can propagate to its caller. -/
inductive StartErr where
  | composeFileNotFound
  | startFailed
deriving DecidableEq, Repr

/-- Result of `_start_redis_container`: the temporary environment file (if it
was created), the possibly rewritten `self._redis_version`, how many
`compose.start` calls were made, and the propagated exception, if any. -/
structure StartResult where
  envFile : Option EnvFileBuf
  redisVersion : String
  attempts : Nat
  err : Option StartErr
deriving DecidableEq, Repr

/-- Embedding of `ReadyRedis._start_redis_container`: locate the compose
file, write the five-line environment file, call `compose.start()`; on a
`CalledProcessError` containing `"manifest unknown"` fall back once to the
`latest` version tag, rewrite the file with `seek`/`write`/`truncate`, and
retry the start (a failure of the retry propagates); any other failure
propagates immediately. -/
def startRedisContainer (c : Config) (env : ComposeEnv) : StartResult :=
  if env.composeFilePresent then
    let f0 := envFileInit c
    match env.firstStart with
    | .success => ⟨some f0, c.redisVersion, 1, none⟩
    | .manifestUnknown =>
      let f1 := fallbackRewrite f0
      match env.secondStart with
      | .success => ⟨some f1, "latest", 2, none⟩
      | _ => ⟨some f1, "latest", 2, some .startFailed⟩
    | .otherFailure => ⟨some f0, c.redisVersion, 1, some .startFailed⟩
  else ⟨none, c.redisVersion, 0, some .composeFileNotFound⟩

/-- Whether the external backend process/container is running. -/
structure Backend where
  running : Bool
deriving DecidableEq, Repr

/-- Embedding of the `ColabRedis` class: its constructor stores the port and
the extra arguments and initialises `self.process = None`. -/
structure ColabRedis where
  port : Nat
  redisArgs : String
  process : Option Nat
deriving DecidableEq, Repr

/-- `ColabRedis.__init__`: `self.process` starts out as `None`. -/
def ColabRedis.init (port : Nat) (redisArgs : String) : ColabRedis :=
  ⟨port, redisArgs, none⟩

/-- Oracle for the external commands `ColabRedis.start` runs: the artifact
download and the three shell commands (`chmod`, launch with
`--daemonize yes`, `sleep 2`). -/
structure ColabEnv where
  downloadOk : Bool
  chmodOk : Bool
  runOk : Bool
  sleepOk : Bool
deriving DecidableEq, Repr

/-- Embedding of `ColabRedis.start` followed by
`_download_redis_stack` / `_install_and_run_redis_stack`: each failing
command raises; the launch command daemonizes the server, but no field of
the object is updated — in particular `self.process` is never assigned.
Returns the object, the daemon state, and the propagated error, if any. -/
def ColabRedis.start (c : ColabRedis) (env : ColabEnv) (d : Backend) :
    ColabRedis × Backend × Option String :=
  if env.downloadOk then
    if env.chmodOk then
      if env.runOk then
        let d1 : Backend := ⟨true⟩
        if env.sleepOk then (c, d1, none)
        else (c, d1, some "Command failed: sleep 2")
      else (c, d, some "Command failed: run")
    else (c, d, some "Command failed: chmod")
  else (c, d, some "download failed")

/-- Embedding of `ColabRedis.stop`: `if self.process: terminate(); wait()`;
when `self.process` is `None` nothing happens. -/
def ColabRedis.stop (c : ColabRedis) (d : Backend) : ColabRedis × Backend :=
  match c.process with
  | some _ => (c, ⟨false⟩)
  | none => (c, d)

/-- State of the handle's temporary environment file object
(`self._env_file`): its buffer, whether it has been closed, and whether the
file still exists on disk. -/
structure EnvFileState where
  buf : EnvFileBuf
  closed : Bool
  onDisk : Bool
deriving DecidableEq, Repr

/-- The per-instance fields of a `ReadyRedis` object that its `cleanup`
method reads or writes: `_colab_redis`, `_compose`, `_env_file`,
`_cleaned_up`, plus the configuration it was built from. -/
structure Handle where
  config : Config
  hasCompose : Bool
  colab : Option ColabRedis
  envFile : Option EnvFileState
  cleanedUp : Bool
deriving DecidableEq, Repr

/-- Observable side effects of one `cleanup` run, in order. -/
inductive Event where
  | colabStopCalled
  | composeStopOk
  | composeStopFailed
  | envFileClosed
  | envFileDeleted
deriving DecidableEq, Repr

/-- Oracle for the external facts `cleanup` depends on: whether
`sys.meta_path is not None` (it is `None` while the interpreter shuts
down), whether `self._compose.stop()` raises, and whether `os.unlink` of a
still-existing file raises a non-`FileNotFoundError` error. -/
structure CleanupEnv where
  metaPathPresent : Bool
  composeStopFails : Bool
  unlinkFails : Bool
deriving DecidableEq, Repr

/-- Errors that `cleanup` can propagate (only a non-`FileNotFoundError`
failure of `os.unlink`; the compose-stop failure is caught). -/
inductive CErr where
  | unlinkError
deriving DecidableEq, Repr

/-- Result of one `cleanup` run: updated object fields, updated backend
state, the emitted events in order, and the propagated error, if any. -/
structure CleanupResult where
  handle : Handle
  backend : Backend
  events : List Event
  err : Option CErr
deriving DecidableEq, Repr

/-- Embedding of `ReadyRedis.cleanup`:

1. return immediately when `self._cleaned_up` is set;
2. if `self._colab_redis` is set, call its `stop` (which only terminates a
   process when `self.process` is set);
3. else if `self._compose` is set and `sys.meta_path is not None`, call
   `self._compose.stop()`, catching any exception;
4. if `self._env_file` is set, close it and `os.unlink` it, swallowing
   `FileNotFoundError` (any other unlink error propagates before the flag
   is set);
5. set `self._cleaned_up = True`. -/
def Handle.cleanup (h : Handle) (b : Backend) (env : CleanupEnv) : CleanupResult :=
  if h.cleanedUp then ⟨h, b, [], none⟩
  else
    let stopStep : Backend × List Event :=
      match h.colab with
      | some cr => ((ColabRedis.stop cr b).2, [Event.colabStopCalled])
      | none =>
        if h.hasCompose && env.metaPathPresent then
          if env.composeStopFails then (b, [Event.composeStopFailed])
          else (⟨false⟩, [Event.composeStopOk])
        else (b, [])
    match h.envFile with
    | some ef =>
      let efc : EnvFileState := { ef with closed := true }
      if ef.onDisk then
        if env.unlinkFails then
          ⟨{ h with envFile := some efc }, stopStep.1,
            stopStep.2 ++ [Event.envFileClosed], some CErr.unlinkError⟩
        else
          ⟨{ h with envFile := some { efc with onDisk := false }, cleanedUp := true },
            stopStep.1, stopStep.2 ++ [Event.envFileClosed, Event.envFileDeleted], none⟩
      else
        ⟨{ h with envFile := some efc, cleanedUp := true }, stopStep.1,
          stopStep.2 ++ [Event.envFileClosed], none⟩
    | none => ⟨{ h with cleanedUp := true }, stopStep.1, stopStep.2, none⟩

/-- A handle as constructed by `ReadyRedis.__init__` on the standard
(orchestrated) path when provisioning succeeds: `_compose` set, no Colab
backend, a freshly written environment file on disk, not yet cleaned up. -/
def mkHandle (c : Config) : Handle :=
  { config := c
    hasCompose := true
    colab := none
    envFile := some ⟨envFileInit c, false, true⟩
    cleanedUp := false }

/-- A registry entry: the instance object's mutable fields together with the
state of the backend it owns. -/
structure Entry where
  handle : Handle
  backend : Backend
deriving DecidableEq, Repr

/-- The class-level state of `ReadyRedis`: `_instances` as an insertion-ordered
association list from configuration to object identity (a numeric id), the
per-object state in `store`, the supply of fresh object identities, and the
supply of fresh ULIDs for generated container names. -/
structure Sys where
  reg : List (Config × Nat)
  store : List (Nat × Entry)
  nextId : Nat
  nextUlid : Nat
deriving DecidableEq, Repr

/-- Dictionary lookup `cls._instances[config]` on the association list. -/
def lookupReg : List (Config × Nat) → Config → Option Nat
  | [], _ => none
  | (c, i) :: rest, c' => if c = c' then some i else lookupReg rest c'

/-- Lookup of an object's state by its identity. -/
def lookupStore : List (Nat × Entry) → Nat → Option Entry
  | [], _ => none
  | (i, e) :: rest, i' => if i = i' then some e else lookupStore rest i'

/-- In-place mutation of an object's state, keyed by its identity. -/
def updateStore : List (Nat × Entry) → Nat → Entry → List (Nat × Entry)
  | [], _, _ => []
  | (i, e) :: rest, i', e' =>
    if i = i' then (i, e') :: rest else (i, e) :: updateStore rest i' e'

/-- The registry core of `ReadyRedis.get` (after the container name has been
resolved): `if config not in cls._instances: cls._instances[config] = cls(...)`
then `return cls._instances[config]`. Construction is modelled by `mkHandle`
with a running backend (a standard-path construction that succeeded). -/
def Sys.getByConfig (s : Sys) (c : Config) : Nat × Sys :=
  match lookupReg s.reg c with
  | some hid => (hid, s)
  | none =>
    (s.nextId,
      { s with
        reg := s.reg ++ [(c, s.nextId)]
        store := s.store ++ [(s.nextId, ⟨mkHandle c, ⟨true⟩⟩)]
        nextId := s.nextId + 1 })

/-- The head of `ReadyRedis.get`: when `redis_container_name` is `None`, a
fresh name `f"redis-stack-{str(ULID())}"` is generated; the ULID supply is
modelled by a counter whose value is embedded in the name. -/
def resolveConfig (p : GetParams) (s : Sys) : Config × Sys :=
  match p.redisContainerName with
  | some n =>
    (⟨p.name, n, p.host, p.port, p.db, p.password, p.protocol,
      p.redisVersion, p.redisArgs⟩, s)
  | none =>
    (⟨p.name, "redis-stack-" ++ toString s.nextUlid, p.host, p.port, p.db,
      p.password, p.protocol, p.redisVersion, p.redisArgs⟩,
     { s with nextUlid := s.nextUlid + 1 })

/-- Embedding of the whole `ReadyRedis.get` class method. -/
def Sys.get (s : Sys) (p : GetParams) : Nat × Sys :=
  let rc := resolveConfig p s
  rc.2.getByConfig rc.1

/-- Calling `cleanup` on the stored instance with identity `hid`. The
instance is mutated in place; the class-level `_instances` mapping is not
touched by `cleanup`. -/
def Sys.cleanupHandle (s : Sys) (hid : Nat) (env : CleanupEnv) :
    Sys × Option CErr :=
  match lookupStore s.store hid with
  | none => (s, none)
  | some e =>
    let r := e.handle.cleanup e.backend env
    ({ s with store := updateStore s.store hid ⟨r.handle, r.backend⟩ }, r.err)

/-- The loop `for instance in cls._instances.values(): instance.cleanup()`:
sequential, with no exception handling, so a propagating cleanup error
aborts the iteration. -/
def shutdownAllGo (envs : Nat → CleanupEnv) : Sys → List Nat → Sys × Option CErr
  | s, [] => (s, none)
  | s, hid :: rest =>
    match s.cleanupHandle hid (envs hid) with
    | (s1, some e) => (s1, some e)
    | (s1, none) => shutdownAllGo envs s1 rest

/-- Embedding of `ReadyRedis.shutdown_all`: iterate `cleanup` over the stored
instances in insertion order, then `cls._instances.clear()`; an exception
escaping one instance's `cleanup` propagates, so the remaining instances are
not attempted and the mapping is not cleared. -/
def Sys.shutdownAll (s : Sys) (envs : Nat → CleanupEnv) : Sys × Option CErr :=
  match shutdownAllGo envs s (s.reg.map Prod.snd) with
  | (s1, none) => ({ s1 with reg := [] }, none)
  | (s1, some e) => (s1, some e)

/-- Registry well-formedness, maintained by the Python runtime: every stored
identity was drawn from the supply, and neither a key nor an identity occurs
twice. -/
def Sys.wf (s : Sys) : Prop :=
  (∀ p ∈ s.reg, p.2 < s.nextId) ∧
    (s.reg.map Prod.fst).Nodup ∧ (s.reg.map Prod.snd).Nodup

/-- The empty class-level state (a fresh Python process). -/
def sys0 : Sys := ⟨[], [], 0, 0⟩

/-- A second sample configuration, differing from `sampleConfig` in the
container name and the port. -/
def sampleConfigB : Config :=
  { sampleConfig with redisContainerName := "other-redis", port := 6380 }

/-- Class-level state after two successful `get` calls with `sampleConfig`
and `sampleConfigB`. -/
def sysTwo : Sys :=
  ⟨[(sampleConfig, 0), (sampleConfigB, 1)],
   [(0, ⟨mkHandle sampleConfig, ⟨true⟩⟩), (1, ⟨mkHandle sampleConfigB, ⟨true⟩⟩)],
   2, 0⟩

/-- Cleanup environments for `sysTwo` in which instance `0`'s `os.unlink`
raises a non-`FileNotFoundError` error while instance `1`'s cleanup would
succeed. -/
def envsUnlinkFailAt0 : Nat → CleanupEnv :=
  fun hid => if hid = 0 then ⟨true, false, true⟩ else ⟨true, false, false⟩

/-- Membership extracted from a successful dictionary lookup. -/
theorem lookupReg_mem {l : List (Config × Nat)} {c : Config} {i : Nat}
    (h : lookupReg l c = some i) : (c, i) ∈ l := by
  induction l with
  | nil => simp [lookupReg] at h
  | cons p rest ih =>
    obtain ⟨c', i'⟩ := p
    by_cases hc : c' = c
    · subst hc
      simp only [lookupReg, if_pos trivial, eq_self_iff_true, if_true,
        Option.some.injEq] at h
      subst h
      exact List.mem_cons_self _ _
    · simp only [lookupReg, if_neg hc] at h
      exact List.mem_cons_of_mem _ (ih h)

/-- A failed lookup means the key is absent. -/
theorem lookupReg_none {l : List (Config × Nat)} {c : Config}
    (h : lookupReg l c = none) : c ∉ l.map Prod.fst := by
  induction l with
  | nil => simp
  | cons p rest ih =>
    obtain ⟨c', i'⟩ := p
    by_cases hc : c' = c
    · simp [lookupReg, hc] at h
    · simp only [lookupReg, if_neg hc] at h
      simp only [List.map_cons, List.mem_cons]
      rintro (rfl | hm)
      · exact hc rfl
      · exact ih h hm

/-- Looking up the key just appended to a map that did not contain it. -/
theorem lookupReg_append_self {l : List (Config × Nat)} {c : Config} {i : Nat}
    (h : lookupReg l c = none) : lookupReg (l ++ [(c, i)]) c = some i := by
  induction l with
  | nil => simp [lookupReg]
  | cons p rest ih =>
    obtain ⟨c', i'⟩ := p
    by_cases hc : c' = c
    · simp [lookupReg, hc] at h
    · simp only [lookupReg, if_neg hc] at h
      simpa [lookupReg, if_neg hc] using ih h

/-- Appending a binding for a different key does not change a lookup. -/
theorem lookupReg_append_ne {l : List (Config × Nat)} {c c' : Config} {i : Nat}
    (hne : c' ≠ c) : lookupReg (l ++ [(c, i)]) c' = lookupReg l c' := by
  induction l with
  | nil => simp [lookupReg, if_neg (Ne.symm hne)]
  | cons p rest ih =>
    obtain ⟨c'', i''⟩ := p
    by_cases hc : c'' = c'
    · simp [lookupReg, hc]
    · simpa [lookupReg, if_neg hc] using ih

/-- Identities found in a well-formed registry are below the supply. -/
theorem lookup_lt_nextId {s : Sys} (hwf : s.wf) {c : Config} {i : Nat}
    (h : lookupReg s.reg c = some i) : i < s.nextId :=
  hwf.1 _ (lookupReg_mem h)

/-- In a well-formed registry, distinct keys hold distinct identities. -/
theorem lookup_inj {s : Sys} (hwf : s.wf) {c₁ c₂ : Config} {i₁ i₂ : Nat}
    (h₁ : lookupReg s.reg c₁ = some i₁) (h₂ : lookupReg s.reg c₂ = some i₂)
    (hne : c₁ ≠ c₂) : i₁ ≠ i₂ := by
  intro he
  have m₁ := lookupReg_mem h₁
  have m₂ := lookupReg_mem h₂
  have heq : (c₁, i₁) = (c₂, i₂) :=
    List.inj_on_of_nodup_map hwf.2.2 m₁ m₂ (by simpa using he)
  exact hne (congrArg Prod.fst heq)

/-- A cleanup whose one-shot flag is already set returns immediately: the
fields, the backend and the outside world are untouched and nothing is
raised. -/
theorem cleanup_of_cleaned {h : Handle} (hc : h.cleanedUp = true)
    (b : Backend) (env : CleanupEnv) : h.cleanup b env = ⟨h, b, [], none⟩ := by
  unfold Handle.cleanup
  simp [hc]

/-- A cleanup run that raises nothing ends with the one-shot flag set. -/
theorem cleanup_flag {h : Handle} {b : Backend} {env : CleanupEnv}
    (hok : (h.cleanup b env).err = none) :
    (h.cleanup b env).handle.cleanedUp = true := by
  unfold Handle.cleanup at hok ⊢
  by_cases hc : h.cleanedUp
  · simp [hc]
  · cases hef : h.envFile with
    | none => simp [hc, hef]
    | some ef =>
      by_cases hd : ef.onDisk
      · by_cases hu : env.unlinkFails
        · simp [hc, hef, hd, hu] at hok
        · simp [hc, hef, hd, hu]
      · simp [hc, hef, hd]

/-- When `os.unlink` does not raise an unexpected error, `cleanup` raises
nothing (the compose-stop failure and `FileNotFoundError` are caught). -/
theorem cleanup_ok_of_unlink_ok {h : Handle} {b : Backend} {env : CleanupEnv}
    (hu : env.unlinkFails = false) : (h.cleanup b env).err = none := by
  unfold Handle.cleanup
  by_cases hc : h.cleanedUp
  · simp [hc]
  · cases hef : h.envFile with
    | none => simp [hc, hef]
    | some ef =>
      by_cases hd : ef.onDisk
      · simp [hc, hef, hd, hu]
      · simp [hc, hef, hd]

/-- `cleanup` of one instance never touches the class-level `_instances`
mapping or the identity supply. -/
theorem cleanupHandle_preserves (s : Sys) (hid : Nat) (env : CleanupEnv) :
    ((s.cleanupHandle hid env).1).reg = s.reg ∧
      ((s.cleanupHandle hid env).1).nextId = s.nextId := by
  unfold Sys.cleanupHandle
  cases lookupStore s.store hid <;> simp

/-- `Sys.cleanupHandle` propagates no error when unlink behaves. -/
theorem cleanupHandle_ok (s : Sys) (hid : Nat) {env : CleanupEnv}
    (hu : env.unlinkFails = false) : (s.cleanupHandle hid env).2 = none := by
  unfold Sys.cleanupHandle
  cases lookupStore s.store hid with
  | none => simp
  | some e => simp [cleanup_ok_of_unlink_ok hu]

/-- The `shutdown_all` loop, when no instance's cleanup raises, finishes
without error and does not touch the mapping or the identity supply. -/
theorem shutdownAllGo_ok (envs : Nat → CleanupEnv)
    (hgood : ∀ i, (envs i).unlinkFails = false) :
    ∀ (ids : List Nat) (s : Sys),
      (shutdownAllGo envs s ids).2 = none ∧
      (shutdownAllGo envs s ids).1.reg = s.reg ∧
      (shutdownAllGo envs s ids).1.nextId = s.nextId
  | [], s => by simp [shutdownAllGo]
  | hid :: rest, s => by
    rcases hck : s.cleanupHandle hid (envs hid) with ⟨s1, err⟩
    have herr := cleanupHandle_ok s hid (hgood hid)
    rw [hck] at herr
    simp only at herr
    subst herr
    have hpres := cleanupHandle_preserves s hid (envs hid)
    rw [hck] at hpres
    simp only at hpres
    have ih := shutdownAllGo_ok envs hgood rest s1
    simp only [shutdownAllGo, hck]
    exact ⟨ih.1, ih.2.1.trans hpres.1, ih.2.2.trans hpres.2⟩

/-- `get` keeps the registry well-formed. -/
theorem wf_getByConfig {s : Sys} (hwf : s.wf) (c : Config) :
    ((s.getByConfig c).2).wf := by
  unfold Sys.getByConfig
  cases hl : lookupReg s.reg c with
  | some hid => simpa using hwf
  | none =>
    obtain ⟨hb, hf, hs⟩ := hwf
    have hknotin : c ∉ s.reg.map Prod.fst := lookupReg_none hl
    have hidnotin : s.nextId ∉ s.reg.map Prod.snd := by
      intro hm
      obtain ⟨p, hp, hpe⟩ := List.mem_map.1 hm
      exact absurd (hpe ▸ hb p hp) (lt_irrefl _)
    refine ⟨?_, ?_, ?_⟩
    · intro p hp
      rcases List.mem_append.1 hp with hp | hp
      · exact Nat.lt_succ_of_lt (hb p hp)
      · simp only [List.mem_singleton] at hp
        subst hp
        exact Nat.lt_succ_self _
    · rw [List.map_append]
      refine List.nodup_append.2 ⟨hf, List.nodup_singleton _, ?_⟩
      intro a ha hb'
      simp only [List.map_cons, List.map_nil, List.mem_singleton] at hb'
      subst hb'
      exact hknotin ha
    · rw [List.map_append]
      refine List.nodup_append.2 ⟨hs, List.nodup_singleton _, ?_⟩
      intro a ha hb'
      simp only [List.map_cons, List.map_nil, List.mem_singleton] at hb'
      subst hb'
      exact hidnotin ha

/-- C1: for every configuration requested twice with identical fields, the
registry's `get` returns the identical Handle (object identity, modelled by
the numeric id); for any pair of requests that differ in at least one field
it returns a distinct Handle; and on a lookup miss it constructs a new
Handle, stores it under the full parameter tuple, and returns it. -/
theorem get_returns_cached_handle (s : Sys) (c₁ c₂ : Config) (hwf : s.wf) :
    (c₁ = c₂ → ((s.getByConfig c₁).2.getByConfig c₂).1 = (s.getByConfig c₁).1) ∧
    (c₁ ≠ c₂ → ((s.getByConfig c₁).2.getByConfig c₂).1 ≠ (s.getByConfig c₁).1) ∧
    (lookupReg s.reg c₁ = none →
      (s.getByConfig c₁).1 = s.nextId ∧
      ((s.getByConfig c₁).2).reg = s.reg ++ [(c₁, s.nextId)] ∧
      ((s.getByConfig c₁).2).store
          = s.store ++ [(s.nextId, ⟨mkHandle c₁, ⟨true⟩⟩)] ∧
      lookupReg ((s.getByConfig c₁).2).reg c₁ = some ((s.getByConfig c₁).1)) := by
  cases hl1 : lookupReg s.reg c₁ with
  | some i₁ =>
    refine ⟨?_, ?_, ?_⟩
    · rintro rfl
      simp [Sys.getByConfig, hl1]
    · intro hne
      cases hl2 : lookupReg s.reg c₂ with
      | some i₂ =>
        have hne' : i₂ ≠ i₁ := lookup_inj hwf hl2 hl1 (Ne.symm hne)
        simp [Sys.getByConfig, hl1, hl2, hne']
      | none =>
        have hlt : i₁ < s.nextId := lookup_lt_nextId hwf hl1
        simp only [Sys.getByConfig, hl1, hl2]
        exact fun he => absurd (he ▸ hlt) (lt_irrefl _)
    · intro hnone
      exact absurd hnone (by simp)
  | none =>
    refine ⟨?_, ?_, ?_⟩
    · rintro rfl
      simp [Sys.getByConfig, hl1, lookupReg_append_self hl1]
    · intro hne
      have hl2' : lookupReg (s.reg ++ [(c₁, s.nextId)]) c₂ = lookupReg s.reg c₂ :=
        lookupReg_append_ne (Ne.symm hne)
      cases hl2 : lookupReg s.reg c₂ with
      | some i₂ =>
        have hlt : i₂ < s.nextId := lookup_lt_nextId hwf hl2
        simp only [Sys.getByConfig, hl1, hl2' , hl2]
        exact fun he => absurd (he ▸ hlt) (lt_irrefl _)
      | none =>
        simp only [Sys.getByConfig, hl1, hl2', hl2]
        exact Nat.succ_ne_self s.nextId
    · intro _
      simp [Sys.getByConfig, hl1, lookupReg_append_self hl1]

/-- Witness for C1 at concrete inputs: on the empty registry, two requests
for `sampleConfig` return the same id, a request for `sampleConfigB` after
one for `sampleConfig` returns a different id, and the miss stores the new
entry. -/
theorem get_returns_cached_handle_witness :
    ((sys0.getByConfig sampleConfig).2.getByConfig sampleConfig).1
        = (sys0.getByConfig sampleConfig).1 ∧
    ((sys0.getByConfig sampleConfig).2.getByConfig sampleConfigB).1
        ≠ (sys0.getByConfig sampleConfig).1 ∧
    (sys0.getByConfig sampleConfig).1 = sys0.nextId ∧
    ((sys0.getByConfig sampleConfig).2).reg
        = sys0.reg ++ [(sampleConfig, sys0.nextId)] := by
  have hwf : sys0.wf := by
    refine ⟨?_, ?_, ?_⟩ <;> simp [sys0]
  have h₁ := get_returns_cached_handle sys0 sampleConfig sampleConfig hwf
  have h₂ := get_returns_cached_handle sys0 sampleConfig sampleConfigB hwf
  have hmiss : lookupReg sys0.reg sampleConfig = none := by
    simp [sys0, lookupReg]
  exact ⟨h₁.1 rfl, h₂.2.1 (by decide), (h₁.2.2 hmiss).1, (h₁.2.2 hmiss).2.1⟩

/-- C2: cleanup is idempotent. Once a `cleanup` invocation has completed
(returned without raising), every subsequent invocation returns immediately:
the handle's fields, the backend and the file system are untouched, no
events are emitted and no error is raised. In the nominal environment
(orchestration stop succeeds, unlink succeeds) the single completed
invocation leaves the backend stopped and the temporary file absent. -/
theorem cleanup_idempotent (h : Handle) (b : Backend) (env : CleanupEnv)
    (hok : (h.cleanup b env).err = none) :
    (∀ (b' : Backend) (env' : CleanupEnv),
      ((h.cleanup b env).handle).cleanup b' env'
        = ⟨(h.cleanup b env).handle, b', [], none⟩) ∧
    (h.colab = none → h.hasCompose = true → env.metaPathPresent = true →
      env.composeStopFails = false → h.cleanedUp = false →
      (h.cleanup b env).backend.running = false ∧
      ∀ ef, (h.cleanup b env).handle.envFile = some ef → ef.onDisk = false) := by
  refine ⟨fun b' env' => cleanup_of_cleaned (cleanup_flag hok) b' env', ?_⟩
  intro hcol hcomp hmp hsf hnc
  unfold Handle.cleanup at hok ⊢
  cases hef : h.envFile with
  | none => simp [hnc, hcol, hcomp, hmp, hsf, hef]
  | some ef =>
    by_cases hd : ef.onDisk
    · by_cases hu : env.unlinkFails
      · simp [hnc, hef, hd, hu] at hok
      · constructor
        · simp [hnc, hcol, hcomp, hmp, hsf, hef, hd, hu]
        · intro ef' hef'
          simp [hnc, hcol, hcomp, hmp, hsf, hef, hd, hu] at hef'
          rw [← hef']
    · constructor
      · simp [hnc, hcol, hcomp, hmp, hsf, hef, hd]
      · intro ef' hef'
        simp [hnc, hcol, hcomp, hmp, hsf, hef, hd] at hef'
        rw [← hef']

/-- Witness for C2: a concrete handle on the standard path, cleaned up once
with a succeeding environment; the repeat invocation is an exact no-op. -/
theorem cleanup_idempotent_witness :
    ((mkHandle sampleConfig).cleanup ⟨true⟩ ⟨true, false, false⟩).err = none ∧
    (((mkHandle sampleConfig).cleanup ⟨true⟩ ⟨true, false, false⟩).handle).cleanup
        ⟨false⟩ ⟨true, true, false⟩
      = ⟨((mkHandle sampleConfig).cleanup ⟨true⟩ ⟨true, false, false⟩).handle,
         ⟨false⟩, [], none⟩ :=
  ⟨by decide,
   (cleanup_idempotent (mkHandle sampleConfig) ⟨true⟩ ⟨true, false, false⟩
     (by decide)).1 ⟨false⟩ ⟨true, true, false⟩⟩

/-- C10: `cleanup` marks the handle as completed even when the orchestration
stop fails (the exception is caught) or is skipped because the interpreter is
shutting down (`sys.meta_path is None`); the backend state is left untouched,
and every later cleanup call returns immediately without retrying the stop,
so a caught stop failure permanently forgoes stopping that backend. -/
theorem cleanup_completes_despite_stop_failure (h : Handle) (b : Backend)
    (env : CleanupEnv) (hnc : h.cleanedUp = false) (hcol : h.colab = none)
    (hcomp : h.hasCompose = true)
    (hskip : env.composeStopFails = true ∨ env.metaPathPresent = false)
    (hu : env.unlinkFails = false) :
    (h.cleanup b env).err = none ∧
    (h.cleanup b env).handle.cleanedUp = true ∧
    (h.cleanup b env).backend = b ∧
    ∀ (b' : Backend) (env' : CleanupEnv),
      ((h.cleanup b env).handle).cleanup b' env'
        = ⟨(h.cleanup b env).handle, b', [], none⟩ := by
  have hok : (h.cleanup b env).err = none := cleanup_ok_of_unlink_ok hu
  refine ⟨hok, cleanup_flag hok, ?_,
    fun b' env' => cleanup_of_cleaned (cleanup_flag hok) b' env'⟩
  unfold Handle.cleanup
  rcases hskip with hsf | hmp
  · cases hef : h.envFile with
    | none =>
      cases hmp2 : env.metaPathPresent <;>
        simp [hnc, hcol, hcomp, hsf, hmp2, hef]
    | some ef =>
      by_cases hd : ef.onDisk
      · cases hmp2 : env.metaPathPresent <;>
          simp [hnc, hcol, hcomp, hsf, hmp2, hef, hd, hu]
      · cases hmp2 : env.metaPathPresent <;>
          simp [hnc, hcol, hcomp, hsf, hmp2, hef, hd]
  · cases hef : h.envFile with
    | none => simp [hnc, hcol, hmp, hef]
    | some ef =>
      by_cases hd : ef.onDisk
      · simp [hnc, hcol, hmp, hef, hd, hu]
      · simp [hnc, hcol, hmp, hef, hd]

/-- Witness for C10: a standard-path handle whose compose stop raises; the
handle is nonetheless marked completed, its backend stays running, and a
repeat cleanup is an exact no-op. -/
theorem cleanup_completes_despite_stop_failure_witness :
    ((mkHandle sampleConfig).cleanup ⟨true⟩ ⟨true, true, false⟩).err = none ∧
    ((mkHandle sampleConfig).cleanup ⟨true⟩ ⟨true, true, false⟩).handle.cleanedUp
        = true ∧
    ((mkHandle sampleConfig).cleanup ⟨true⟩ ⟨true, true, false⟩).backend
        = ⟨true⟩ ∧
    ∀ (b' : Backend) (env' : CleanupEnv),
      (((mkHandle sampleConfig).cleanup ⟨true⟩ ⟨true, true, false⟩).handle).cleanup
          b' env'
        = ⟨((mkHandle sampleConfig).cleanup ⟨true⟩ ⟨true, true, false⟩).handle,
           b', [], none⟩ :=
  cleanup_completes_despite_stop_failure (mkHandle sampleConfig) ⟨true⟩
    ⟨true, true, false⟩ (by decide) (by decide) (by decide) (Or.inl rfl) rfl

/-- C5 counterexample: an execution of `cleanup` in which the temporary
environment file is deleted although the backend was never stopped — the
orchestration stop raised (and was caught), yet the file deletion proceeded.
This refutes the claim that in no execution the file is deleted while the
backend has not been stopped. -/
theorem env_file_deleted_while_backend_running :
    ((mkHandle sampleConfig).cleanup ⟨true⟩ ⟨true, true, false⟩).backend.running
        = true ∧
    Event.envFileDeleted
        ∈ ((mkHandle sampleConfig).cleanup ⟨true⟩ ⟨true, true, false⟩).events ∧
    ((mkHandle sampleConfig).cleanup ⟨true⟩ ⟨true, true, false⟩).err = none := by
  decide

/-- C5 amended: the cleanup sequence performs the backend-stop step before
the environment-file deletion — in every execution the event trace splits
into a stop part followed by a file part, and when the orchestration stop
succeeded the backend is stopped in the final state — but when the stop
fails (caught) or is skipped during interpreter shutdown, the file is still
deleted without the backend having been stopped. -/
theorem stop_precedes_env_file_deletion (h : Handle) (b : Backend)
    (env : CleanupEnv) :
    ∃ tr₁ tr₂,
      (h.cleanup b env).events = tr₁ ++ tr₂ ∧
      Event.envFileDeleted ∉ tr₁ ∧
      Event.composeStopOk ∉ tr₂ ∧
      Event.colabStopCalled ∉ tr₂ ∧
      (Event.composeStopOk ∈ tr₁ → (h.cleanup b env).backend.running = false) := by
  unfold Handle.cleanup
  by_cases hc : h.cleanedUp
  · exact ⟨[], [], by simp [hc], by simp, by simp, by simp, by simp⟩
  · cases hcol : h.colab with
    | some cr =>
      cases hef : h.envFile with
      | none =>
        exact ⟨[Event.colabStopCalled], [], by simp [hc, hcol, hef],
          by simp, by simp, by simp, by simp⟩
      | some ef =>
        by_cases hd : ef.onDisk
        · by_cases hu : env.unlinkFails
          · exact ⟨[Event.colabStopCalled], [Event.envFileClosed],
              by simp [hc, hcol, hef, hd, hu], by simp, by simp, by simp, by simp⟩
          · exact ⟨[Event.colabStopCalled],
              [Event.envFileClosed, Event.envFileDeleted],
              by simp [hc, hcol, hef, hd, hu], by simp, by simp, by simp, by simp⟩
        · exact ⟨[Event.colabStopCalled], [Event.envFileClosed],
            by simp [hc, hcol, hef, hd], by simp, by simp, by simp, by simp⟩
    | none =>
      by_cases hcm : (h.hasCompose && env.metaPathPresent) = true
      · by_cases hsf : env.composeStopFails
        · cases hef : h.envFile with
          | none =>
            exact ⟨[Event.composeStopFailed], [], by simp [hc, hcol, hcm, hsf, hef],
              by simp, by simp, by simp, by simp⟩
          | some ef =>
            by_cases hd : ef.onDisk
            · by_cases hu : env.unlinkFails
              · exact ⟨[Event.composeStopFailed], [Event.envFileClosed],
                  by simp [hc, hcol, hcm, hsf, hef, hd, hu],
                  by simp, by simp, by simp, by simp⟩
              · exact ⟨[Event.composeStopFailed],
                  [Event.envFileClosed, Event.envFileDeleted],
                  by simp [hc, hcol, hcm, hsf, hef, hd, hu],
                  by simp, by simp, by simp, by simp⟩
            · exact ⟨[Event.composeStopFailed], [Event.envFileClosed],
                by simp [hc, hcol, hcm, hsf, hef, hd],
                by simp, by simp, by simp, by simp⟩
        · cases hef : h.envFile with
          | none =>
            exact ⟨[Event.composeStopOk], [], by simp [hc, hcol, hcm, hsf, hef],
              by simp, by simp, by simp, by simp [hc, hcol, hcm, hsf, hef]⟩
          | some ef =>
            by_cases hd : ef.onDisk
            · by_cases hu : env.unlinkFails
              · exact ⟨[Event.composeStopOk], [Event.envFileClosed],
                  by simp [hc, hcol, hcm, hsf, hef, hd, hu], by simp, by simp, by simp,
                  by simp [hc, hcol, hcm, hsf, hef, hd, hu]⟩
              · exact ⟨[Event.composeStopOk],
                  [Event.envFileClosed, Event.envFileDeleted],
                  by simp [hc, hcol, hcm, hsf, hef, hd, hu], by simp, by simp, by simp,
                  by simp [hc, hcol, hcm, hsf, hef, hd, hu]⟩
            · exact ⟨[Event.composeStopOk], [Event.envFileClosed],
                by simp [hc, hcol, hcm, hsf, hef, hd], by simp, by simp, by simp,
                by simp [hc, hcol, hcm, hsf, hef, hd]⟩
      · cases hef : h.envFile with
        | none =>
          exact ⟨[], [], by simp [hc, hcol, hcm, hef],
            by simp, by simp, by simp, by simp⟩
        | some ef =>
          by_cases hd : ef.onDisk
          · by_cases hu : env.unlinkFails
            · exact ⟨[], [Event.envFileClosed],
                by simp [hc, hcol, hcm, hef, hd, hu],
                by simp, by simp, by simp, by simp⟩
            · exact ⟨[], [Event.envFileClosed, Event.envFileDeleted],
                by simp [hc, hcol, hcm, hef, hd, hu],
                by simp, by simp, by simp, by simp⟩
          · exact ⟨[], [Event.envFileClosed],
              by simp [hc, hcol, hcm, hef, hd],
              by simp, by simp, by simp, by simp⟩

/-- C6 (bug evaluation): on the direct-binary path, `ColabRedis.__init__`
sets `self.process = None` and `start` launches the daemonized server
without ever assigning `self.process`, so the `if self.process:` guard in
`ColabRedis.stop` is always false: `stop` terminates nothing and waits for
nothing, and a `cleanup` of such a handle leaves the backend running. -/
theorem colab_stop_never_terminates_daemon :
    (ColabRedis.init 6379 "--save '' --appendonly no").process = none ∧
    ColabRedis.start (ColabRedis.init 6379 "--save '' --appendonly no")
        ⟨true, true, true, true⟩ ⟨false⟩
      = (ColabRedis.init 6379 "--save '' --appendonly no", ⟨true⟩, none) ∧
    ColabRedis.stop (ColabRedis.init 6379 "--save '' --appendonly no") ⟨true⟩
      = (ColabRedis.init 6379 "--save '' --appendonly no", ⟨true⟩) ∧
    (({ config := sampleConfig, hasCompose := false,
        colab := some (ColabRedis.init 6379 "--save '' --appendonly no"),
        envFile := none, cleanedUp := false } : Handle).cleanup ⟨true⟩
        ⟨true, false, false⟩).backend.running = true := by
  decide

/-- C7 (bug evaluation): the environment file written by
`_start_redis_container` has five `KEY=VALUE` lines at the first
`compose.start`, but the one-shot fallback's
`seek(0)`/`write("REDIS_VERSION=latest\n")`/`truncate()` sequence leaves a
one-line file, so the five-line format does not hold at the retry's
consumption point. -/
theorem fallback_rewrite_truncates_env_file :
    lineCount (envFileInit sampleConfig) = 5 ∧
    (envFileInit sampleConfig).content
      = ("PROJECT_NAME=ready-redis\n" ++ "REDIS_CONTAINER_NAME=my-redis\n" ++
         "REDIS_VERSION=6.2.6-v9\n" ++ "REDIS_PORT=6379\n" ++
         "REDIS_ARGS=--save '' --appendonly no\n").data ∧
    (startRedisContainer sampleConfig ⟨true, .manifestUnknown, .success⟩).envFile
      = some (fallbackRewrite (envFileInit sampleConfig)) ∧
    lineCount (fallbackRewrite (envFileInit sampleConfig)) = 1 ∧
    (fallbackRewrite (envFileInit sampleConfig)).content
      = "REDIS_VERSION=latest\n".data := by
  decide

/-- C4: in the orchestrated path, a `"manifest unknown"` failure of the
first start triggers exactly one fallback: the version becomes `latest`,
the environment file is rewritten, and the start is retried — the result is
error-free iff the retry succeeds; a first failure of any other kind, and a
first success, end after a single attempt, with the error propagated in the
former case. -/
theorem start_container_fallback_once (c : Config) (env : ComposeEnv)
    (hf : env.composeFilePresent = true) :
    (env.firstStart = .success →
      startRedisContainer c env
        = ⟨some (envFileInit c), c.redisVersion, 1, none⟩) ∧
    (env.firstStart = .manifestUnknown →
      (startRedisContainer c env).attempts = 2 ∧
      (startRedisContainer c env).redisVersion = "latest" ∧
      (startRedisContainer c env).envFile
          = some (fallbackRewrite (envFileInit c)) ∧
      ((startRedisContainer c env).err = none ↔ env.secondStart = .success)) ∧
    (env.firstStart = .otherFailure →
      startRedisContainer c env
        = ⟨some (envFileInit c), c.redisVersion, 1, some .startFailed⟩) := by
  refine ⟨?_, ?_, ?_⟩
  · intro h1
    simp [startRedisContainer, hf, h1]
  · intro h1
    cases hs : env.secondStart <;> simp [startRedisContainer, hf, h1, hs]
  · intro h1
    simp [startRedisContainer, hf, h1]

/-- Witness for C4: a concrete configuration whose requested version is
unresolvable on the first start; the retry succeeds and the result carries
the `latest` tag and the rewritten file after exactly two attempts. -/
theorem start_container_fallback_once_witness :
    (startRedisContainer sampleConfig ⟨true, .manifestUnknown, .success⟩).attempts
        = 2 ∧
    (startRedisContainer sampleConfig
        ⟨true, .manifestUnknown, .success⟩).redisVersion = "latest" ∧
    (startRedisContainer sampleConfig ⟨true, .manifestUnknown, .success⟩).envFile
        = some (fallbackRewrite (envFileInit sampleConfig)) ∧
    ((startRedisContainer sampleConfig ⟨true, .manifestUnknown, .success⟩).err
          = none
      ↔ (⟨true, .manifestUnknown, .success⟩ : ComposeEnv).secondStart
          = .success) :=
  (start_container_fallback_once sampleConfig
    ⟨true, .manifestUnknown, .success⟩ rfl).2.1 rfl

/-- C8: registry entries are never evicted individually — `cleanup` of any
stored instance leaves the `_instances` mapping exactly as it was (the entry
for its configuration remains, bound to the same object identity), and `get`
only ever appends; only `shutdown_all` removes entries. -/
theorem cleanup_preserves_registry_entries :
    (∀ (s : Sys) (hid : Nat) (env : CleanupEnv),
      ((s.cleanupHandle hid env).1).reg = s.reg) ∧
    (∀ (s : Sys) (p : GetParams), ∃ tail, ((s.get p).2).reg = s.reg ++ tail) := by
  constructor
  · intro s hid env
    exact (cleanupHandle_preserves s hid env).1
  · intro s p
    unfold Sys.get
    rcases hr : resolveConfig p s with ⟨c, s1⟩
    have hreg1 : s1.reg = s.reg := by
      unfold resolveConfig at hr
      cases hp : p.redisContainerName <;> rw [hp] at hr <;> simp only at hr <;>
        injection hr with h1 h2 <;> rw [← h2]
    cases hl : lookupReg s.reg c with
    | none => exact ⟨[(c, s1.nextId)], by simp [Sys.getByConfig, hreg1, hl]⟩
    | some hid => exact ⟨[], by simp [Sys.getByConfig, hreg1, hl]⟩

/-- C9 counterexample: the claim states the default project name is
`"default-project"`, but `ReadyRedis.get` declares `name: str =
"ready-redis"`. -/
theorem default_name_not_default_project :
    ({} : GetParams).name ≠ "default-project" := by decide

/-- C9 amended: every construction parameter of `get` is optional, with
defaults `name="ready-redis"`, instance name generated fresh from the ULID
supply when unset (consuming the supply), `host="localhost"`, `port=6379`,
`db=0`, `password=none`, `protocol=3`, `redis_version="latest"`, and
`redis_args` equal to the two persistence-disabling flags
`--save '' --appendonly no`. -/
theorem get_parameter_defaults :
    ({} : GetParams)
      = ⟨"ready-redis", none, "localhost", 6379, 0, none, 3, "latest",
         "--save '' --appendonly no"⟩ ∧
    ∀ (p : GetParams) (s : Sys), p.redisContainerName = none →
      (resolveConfig p s).1
          = ⟨p.name, "redis-stack-" ++ toString s.nextUlid, p.host, p.port,
             p.db, p.password, p.protocol, p.redisVersion, p.redisArgs⟩ ∧
      (resolveConfig p s).2 = { s with nextUlid := s.nextUlid + 1 } := by
  refine ⟨rfl, ?_⟩
  intro p s hp
  rw [resolveConfig, hp]
  exact ⟨rfl, rfl⟩

/-- Witness for C9 amended: the all-defaults parameter record on the empty
state resolves to a `redis-stack-0` container name and consumes the ULID
supply. -/
theorem get_parameter_defaults_witness :
    (resolveConfig {} sys0).1
        = ⟨({} : GetParams).name, "redis-stack-" ++ toString sys0.nextUlid,
           ({} : GetParams).host, ({} : GetParams).port, ({} : GetParams).db,
           ({} : GetParams).password, ({} : GetParams).protocol,
           ({} : GetParams).redisVersion, ({} : GetParams).redisArgs⟩ ∧
    (resolveConfig {} sys0).2 = { sys0 with nextUlid := sys0.nextUlid + 1 } :=
  get_parameter_defaults.2 {} sys0 rfl

/-- C3 counterexample: with two stored instances, a non-`FileNotFoundError`
failure of the first instance's `os.unlink` escapes its `cleanup`, so
`shutdown_all` aborts — the second instance's cleanup is never attempted
(its handle is untouched, its backend still running) and the registry is
not cleared. -/
theorem shutdown_all_no_failure_isolation :
    (sysTwo.shutdownAll envsUnlinkFailAt0).2 = some CErr.unlinkError ∧
    (sysTwo.shutdownAll envsUnlinkFailAt0).1.reg = sysTwo.reg ∧
    lookupStore (sysTwo.shutdownAll envsUnlinkFailAt0).1.store 1
      = some ⟨mkHandle sampleConfigB, ⟨true⟩⟩ ∧
    (mkHandle sampleConfigB).cleanedUp = false := by
  decide

/-- C3 amended: `shutdown_all` invokes `cleanup` on the stored handles in
insertion order with no failure isolation — an error escaping one handle's
cleanup prevents attempts on the remaining handles and leaves the mapping
uncleared — but when every cleanup completes, it raises nothing and clears
the registry, so a subsequent `get` with a previously-used configuration
constructs a fresh Handle rather than returning a stale one. -/
theorem shutdown_all_clears_registry (s : Sys) (envs : Nat → CleanupEnv)
    (hwf : s.wf) (hgood : ∀ i, (envs i).unlinkFails = false) :
    (s.shutdownAll envs).2 = none ∧
    (s.shutdownAll envs).1.reg = [] ∧
    ∀ (c : Config) (hid : Nat), lookupReg s.reg c = some hid →
      ((s.shutdownAll envs).1.getByConfig c).1 ≠ hid := by
  have hgo := shutdownAllGo_ok envs hgood (s.reg.map Prod.snd) s
  rcases hres : shutdownAllGo envs s (s.reg.map Prod.snd) with ⟨s1, err⟩
  rw [hres] at hgo
  simp only at hgo
  obtain ⟨herr, hreg, hnext⟩ := hgo
  subst herr
  unfold Sys.shutdownAll
  rw [hres]
  refine ⟨rfl, rfl, ?_⟩
  intro c hid hl
  have hlt : hid < s.nextId := lookup_lt_nextId hwf hl
  show (({ s1 with reg := [] } : Sys).getByConfig c).1 ≠ hid
  unfold Sys.getByConfig
  simp only [lookupReg]
  intro he
  rw [hnext] at he
  exact absurd (he ▸ hlt) (lt_irrefl _)

/-- Witness for C3 amended: on the two-instance state with well-behaved
environments, `shutdown_all` raises nothing, clears the registry, and the
next request for `sampleConfig` yields a fresh identity. -/
theorem shutdown_all_clears_registry_witness :
    (sysTwo.shutdownAll (fun _ => ⟨true, false, false⟩)).2 = none ∧
    (sysTwo.shutdownAll (fun _ => ⟨true, false, false⟩)).1.reg = [] ∧
    ((sysTwo.shutdownAll (fun _ => ⟨true, false, false⟩)).1.getByConfig
        sampleConfig).1 ≠ 0 := by
  have h := shutdown_all_clears_registry sysTwo (fun _ => ⟨true, false, false⟩)
    ⟨by decide, by decide, by decide⟩ (fun _ => rfl)
  exact ⟨h.1, h.2.1, h.2.2 sampleConfig 0 (by decide)⟩
